import Mathlib

/-!
Verification of the six-nations-predictor prediction-and-calibration engine.

The Python sources are shallowly embedded here:
  * `src/match_predictor.py` — configuration, unit averages, tactical metrics
    and `simulate_match`;
  * `src/squad_builder.py` — name normalization, identity matching and the
    fallback-skill percentile;
  * `src/src/optimize_params.py` — metric computation and the grid-search
    calibrator, with file loading abstracted as an oracle.

Player skills, weights and margins are modelled as exact rationals; the
win-probability step (Python `math.erf`) is modelled over the reals with the
error function defined by its Gaussian integral.
-/

namespace SixNations

/-! ### Data model -/

/-- A row of the rating table `six_nations_squads_FINAL.csv` as consumed by
`match_player_data` and `get_country_fallback_skill`. -/
structure DbRow where
  name : String
  country : String
  position_group : String
  skill : ℚ
deriving DecidableEq

/-- A row of the match-ready squad table consumed by `simulate_match`. -/
structure SquadRow where
  country : String
  position_group : String
  skill : ℚ
  starting : ℤ
  shirt_number : ℤ
deriving DecidableEq

/-- The match-ready squad table.  `hasShirtColumn` models the Python check
`'shirt_number' in df_subset.columns`. -/
structure SquadTable where
  rows : List SquadRow
  hasShirtColumn : Bool
deriving DecidableEq

/-- The tunable configuration (`DEFAULT_CONFIG` keys in
`src/match_predictor.py`, lines 6–29). -/
structure Params where
  HOME_ADVANTAGE : ℚ
  STD_DEV : ℚ
  WEIGHT_MODEL_TACTICAL : ℚ
  WEIGHT_MODEL_ELO : ℚ
  WEIGHT_PACK : ℚ
  WEIGHT_CONTROL : ℚ
  WEIGHT_STRIKE : ℚ
  WEIGHT_STARTERS : ℚ
  WEIGHT_BENCH : ℚ
  TACTICAL_SCALING_FACTOR : ℚ
  ELO_SCALING : ℚ
  MISMATCH_THRESHOLD : ℚ
  MISMATCH_BONUS : ℚ
deriving DecidableEq

/-- `DEFAULT_CONFIG` from `src/match_predictor.py`. -/
def DEFAULT_CONFIG : Params where
  HOME_ADVANTAGE := 2
  STD_DEV := 27/2
  WEIGHT_MODEL_TACTICAL := 65/100
  WEIGHT_MODEL_ELO := 35/100
  WEIGHT_PACK := 40/100
  WEIGHT_CONTROL := 35/100
  WEIGHT_STRIKE := 25/100
  WEIGHT_STARTERS := 80/100
  WEIGHT_BENCH := 20/100
  TACTICAL_SCALING_FACTOR := 85/100
  ELO_SCALING := 7/10
  MISMATCH_THRESHOLD := 4
  MISMATCH_BONUS := 5

/-- `WR_ELO.get(team, 75.0)` — the static World Rugby ELO lookup of
`src/match_predictor.py`, lines 32–39 and 138–139, with its 75.0 default. -/
def WR_ELO_get (team : String) : ℚ :=
  if team = "Ireland" then 8797/100
  else if team = "France" then 8724/100
  else if team = "England" then 8941/100
  else if team = "Scotland" then 8022/100
  else if team = "Italy" then 7898/100
  else if team = "Wales" then 7423/100
  else 75

/-- Pandas `Series.mean()` on a nonempty column (callers guard emptiness). -/
def mean (l : List ℚ) : ℚ := l.sum / l.length

/-- `get_unit_average` from `src/match_predictor.py`, lines 42–72. -/
def get_unit_average (hasShirt : Bool) (df_subset : List SquadRow)
    (unit_type : String) : ℚ :=
  if df_subset.isEmpty then 70
  else if unit_type = "Pack" then
    let pack := df_subset.filter (fun r => r.position_group = "Forwards")
    if !pack.isEmpty then mean (pack.map (·.skill)) else 70
  else if unit_type = "Control" then
    let halfbacks :=
      df_subset.filter (fun r => r.shirt_number = 9 ∨ r.shirt_number = 10)
    if hasShirt ∧ ¬halfbacks.isEmpty then mean (halfbacks.map (·.skill))
    else
      let backs := df_subset.filter (fun r => r.position_group = "Backs")
      if !backs.isEmpty then mean (backs.map (·.skill)) else 70
  else if unit_type = "Strike" then
    let backs := df_subset.filter (fun r => r.position_group = "Backs")
    let strike :=
      backs.filter (fun r => ¬(r.shirt_number = 9 ∨ r.shirt_number = 10))
    if hasShirt ∧ ¬strike.isEmpty then mean (strike.map (·.skill))
    else if !backs.isEmpty then mean (backs.map (·.skill)) else 70
  else 70

/-- The metrics dictionary returned by `get_tactical_metrics`. -/
structure Metrics where
  total_score : ℚ
  pack_xv : ℚ
  pack_bench : ℚ
deriving DecidableEq

/-- `get_tactical_metrics` from `src/match_predictor.py`, lines 75–111. -/
def get_tactical_metrics (df : SquadTable) (country : String)
    (params : Params) : Option Metrics :=
  let squad := df.rows.filter (fun r => r.country = country)
  if squad.isEmpty then none
  else
    let starters := squad.filter (fun r => r.starting = 1)
    let bench := squad.filter (fun r => r.starting = 0)
    let xv_pack := get_unit_average df.hasShirtColumn
      (starters.filter (fun r => r.position_group = "Forwards")) "Pack"
    let xv_control := get_unit_average df.hasShirtColumn
      (starters.filter (fun r => r.position_group = "Backs")) "Control"
    let xv_strike := get_unit_average df.hasShirtColumn
      (starters.filter (fun r => r.position_group = "Backs")) "Strike"
    let score_xv := xv_pack * params.WEIGHT_PACK +
      xv_control * params.WEIGHT_CONTROL + xv_strike * params.WEIGHT_STRIKE
    let bn_pack := get_unit_average df.hasShirtColumn
      (bench.filter (fun r => r.position_group = "Forwards")) "Pack"
    let bn_control := get_unit_average df.hasShirtColumn
      (bench.filter (fun r => r.position_group = "Backs")) "Control"
    let bn_strike := get_unit_average df.hasShirtColumn
      (bench.filter (fun r => r.position_group = "Backs")) "Strike"
    let score_bench := bn_pack * params.WEIGHT_PACK +
      bn_control * params.WEIGHT_CONTROL + bn_strike * params.WEIGHT_STRIKE
    let total_score := score_xv * params.WEIGHT_STARTERS +
      score_bench * params.WEIGHT_BENCH
    some ⟨total_score, xv_pack, bn_pack⟩

/-- The physical-mismatch adjustment of `src/match_predictor.py`,
lines 132–135, as a function of `pack_diff`. -/
def mismatch_bonus (pack_diff threshold bonus : ℚ) : ℚ :=
  if pack_diff > threshold then bonus
  else if pack_diff < -threshold then -bonus
  else 0

/-- The successful prediction dictionary returned by `simulate_match`
(`margin`, `prob` being derived from `margin`, and the debug breakdown). -/
structure Prediction where
  home : String
  away : String
  margin : ℚ
  tactical : ℚ
  elo : ℚ
  pack_diff : ℚ
deriving DecidableEq

/-- Result of `simulate_match`: either the error dictionary
`{"error": f"Missing data in CSV for {home} or {away}"}` (whose only data
are the two team names) or a prediction. -/
inductive SimResult where
  | error (home away : String)
  | ok (pred : Prediction)
deriving DecidableEq

/-- `simulate_match` from `src/match_predictor.py`, lines 114–161. -/
def simulate_match (home away : String) (df : SquadTable)
    (params : Params := DEFAULT_CONFIG) : SimResult :=
  match get_tactical_metrics df home params,
        get_tactical_metrics df away params with
  | some h_metrics, some a_metrics =>
    let margin_tactical0 := (h_metrics.total_score - a_metrics.total_score) *
      params.TACTICAL_SCALING_FACTOR
    let pack_total_home := 7/10 * h_metrics.pack_xv + 3/10 * h_metrics.pack_bench
    let pack_total_away := 7/10 * a_metrics.pack_xv + 3/10 * a_metrics.pack_bench
    let pack_diff := pack_total_home - pack_total_away
    let margin_tactical := margin_tactical0 +
      mismatch_bonus pack_diff params.MISMATCH_THRESHOLD params.MISMATCH_BONUS
    let margin_elo := (WR_ELO_get home - WR_ELO_get away) * params.ELO_SCALING
    let final_margin := margin_tactical * params.WEIGHT_MODEL_TACTICAL +
      margin_elo * params.WEIGHT_MODEL_ELO + params.HOME_ADVANTAGE
    .ok ⟨home, away, final_margin, margin_tactical, margin_elo, pack_diff⟩
  | _, _ => .error home away

/-! ### Win probability (`math.erf` over the reals) -/

/-- The Gauss error function, `math.erf`. -/
noncomputable def erf (x : ℝ) : ℝ :=
  (2 / Real.sqrt Real.pi) * ∫ t in (0:ℝ)..x, Real.exp (-t ^ 2)

/-- The standard normal CDF, written with the same `erf` formula the spec
gives as its equivalent form (`prob = 0.5*(1+erf(z/sqrt 2))`). -/
noncomputable def stdNormalCDF (z : ℝ) : ℝ :=
  (1/2) * (1 + erf (z / Real.sqrt 2))

/-- Lines 148–149 of `src/match_predictor.py`:
`z_score = final_margin / STD_DEV` and
`prob_home = 0.5 * (1 + math.erf(z_score / math.sqrt(2)))`. -/
noncomputable def win_probability_home (final_margin STD_DEV : ℚ) : ℝ :=
  (1/2) * (1 + erf (((final_margin / STD_DEV : ℚ) : ℝ) / Real.sqrt 2))

/-! ### Identity resolution (`src/squad_builder.py`) -/

/-- ASCII lower-casing of one character, modelling Python `str.lower` on
the name data in play. -/
def char_lower (c : Char) : Char :=
  if 'A' ≤ c ∧ c ≤ 'Z' then Char.ofNat (c.toNat + 32) else c

/-- Whitespace as stripped by Python `str.strip`. -/
def is_ws (c : Char) : Bool :=
  c = ' ' ∨ c = '\t' ∨ c = '\n' ∨ c = '\r'

/-- Strip whitespace from both ends of a character list. -/
def trim_chars (l : List Char) : List Char :=
  ((l.dropWhile is_ws).reverse.dropWhile is_ws).reverse

/-- Python `s.lower()`. -/
def str_lower (s : String) : String :=
  ⟨s.data.map char_lower⟩

/-- `normalize_name` from `src/squad_builder.py`, lines 10–14; `none` models
a NaN cell (`pd.isna`), and `strip().lower()` is modelled character-wise. -/
def normalize_name (name : Option String) : String :=
  match name with
  | none => ""
  | some s => ⟨(trim_chars s.data).map char_lower⟩

/-- Containment of one character list in another. -/
def chars_in (needle : List Char) : List Char → Bool
  | [] => needle.isEmpty
  | c :: rest => needle.isPrefixOf (c :: rest) || chars_in needle rest

/-- Python's substring test `needle in hay`. -/
def str_in (needle hay : String) : Bool :=
  chars_in needle.data hay.data

/-- The country filter `db_df[db_df['country'].str.lower() == country.lower()]`. -/
def country_matches (country : String) (r : DbRow) : Bool :=
  str_lower r.country = str_lower country

/-- The containment test of the fallback pass, line 33 of
`src/squad_builder.py`: `clean_name in db_name or db_name in clean_name`. -/
def containment_match (clean_name : String) (r : DbRow) : Bool :=
  str_in clean_name (normalize_name (some r.name)) ||
    str_in (normalize_name (some r.name)) clean_name

/-- `match_player_data` from `src/squad_builder.py`, lines 17–36. -/
def match_player_data (player_name : Option String) (country : String)
    (db_df : List DbRow) : Option DbRow :=
  let clean_name := normalize_name player_name
  let country_db := db_df.filter (country_matches country)
  let found := country_db.filter
    (fun r => normalize_name (some r.name) = clean_name)
  match found with
  | f :: _ => some f
  | [] => country_db.find? (containment_match clean_name)

/-- Insertion into an ascending list, for the sort underlying the pandas
quantile. -/
def insert_sorted (x : ℚ) : List ℚ → List ℚ
  | [] => [x]
  | y :: ys => if x ≤ y then x :: y :: ys else y :: insert_sorted x ys

/-- Ascending insertion sort of the skill column. -/
def sort_asc (l : List ℚ) : List ℚ := l.foldr insert_sorted []

/-- Pandas `Series.quantile(q)` with the default linear interpolation:
on the ascending sort, the virtual index is `q*(n-1)`; the value is
interpolated between the neighbouring order statistics. -/
def quantile (l : List ℚ) (q : ℚ) : ℚ :=
  let sorted := sort_asc l
  let h : ℚ := q * ((l.length : ℚ) - 1)
  let i : ℕ := (Int.floor h).toNat
  let lo := sorted.getD i 0
  let hi := sorted.getD (i + 1) lo
  lo + (h - (Int.floor h : ℤ)) * (hi - lo)

/-- `get_country_fallback_skill` from `src/squad_builder.py`, lines 39–44. -/
def get_country_fallback_skill (country : String) (db_df : List DbRow) : ℚ :=
  let country_db := db_df.filter (country_matches country)
  if country_db.isEmpty then 70
  else quantile (country_db.map (·.skill)) (1/4)

/-- `_infer_position_group` from `src/src/optimize_params.py`, lines 107–112
(the same shirt-number set appears at lines 115 and 141 of
`src/squad_builder.py`). -/
def infer_position_group (jersey_number : ℤ) : String :=
  if jersey_number ∈ ([1, 2, 3, 4, 5, 6, 7, 8, 16, 17, 18, 19, 20] : List ℤ)
  then "Forwards" else "Backs"

/-- A resolved lineup entry, the dictionary appended to `match_squad`. -/
structure ResolvedPlayer where
  country : String
  name : String
  position_group : String
  skill : ℚ
  starting : ℤ
  shirt_number : ℤ
deriving DecidableEq

/-- The per-player resolution step of `load_match_squads`
(`src/src/optimize_params.py`, lines 169–195): a matched database row is
used as-is; otherwise position is inferred from the jersey number and the
precomputed per-country fallback skill is used. -/
def resolve_lineup_entry (player : String) (team : String)
    (db_df : List DbRow) (fallback : ℚ) (jersey_number : ℤ)
    (is_starting : ℤ) : ResolvedPlayer :=
  match match_player_data (some player) team db_df with
  | some data =>
    ⟨team, data.name, data.position_group, data.skill, is_starting,
      jersey_number⟩
  | none =>
    ⟨team, player, infer_position_group jersey_number, fallback, is_starting,
      jersey_number⟩

/-! ### Calibrator (`src/src/optimize_params.py`) -/

/-- One entry of `REAL_RESULTS`. -/
structure HistMatch where
  home : String
  away : String
  home_score : ℤ
  away_score : ℤ
  match_file : String
deriving DecidableEq

/-- `REAL_RESULTS` from `src/src/optimize_params.py`, lines 14–57. -/
def REAL_RESULTS : List HistMatch :=
  [⟨"France", "Ireland", 36, 14, "France-Ireland.xlsx"⟩,
   ⟨"Italy", "Scotland", 18, 15, "Italy-Scotland.xlsx"⟩,
   ⟨"England", "Wales", 48, 7, "England-Wales.xlsx"⟩,
   ⟨"Scotland", "England", 31, 20, "Scotland-England.xlsx"⟩,
   ⟨"Wales", "France", 12, 54, "Wales-France.xlsx"⟩,
   ⟨"Ireland", "Italy", 20, 13, "Ireland-Italy.xlsx"⟩]

/-- The metrics dictionary of `calculate_metrics`. -/
structure EvalMetrics where
  rmse : ℝ
  mae : ℚ
  max_error : ℚ
  correct_winners : ℕ
  accuracy : ℚ

/-- `pred["margin"]`: reading the margin of a prediction dictionary raises
`KeyError` on the error dictionary. -/
def pred_margin? : SimResult → Option ℚ
  | .ok r => some r.margin
  | .error _ _ => none

/-- The correct-winner test of `calculate_metrics`, lines 89–94. -/
def correct_winner (pred_margin real_margin : ℚ) : Bool :=
  (real_margin > 0 ∧ pred_margin > 0) ∨
    (real_margin < 0 ∧ pred_margin < 0) ∨
    (real_margin = 0 ∧ |pred_margin| < 3)

/-- `calculate_metrics` from `src/src/optimize_params.py`, lines 60–104.
`Except.error` models the exceptions it raises (`ValueError` on an empty
prediction list, `KeyError` when a prediction is the error dictionary). -/
noncomputable def calculate_metrics (predictions : List SimResult)
    (real_results : List HistMatch) : Except String EvalMetrics :=
  if predictions.isEmpty then .error "ValueError: Predictions list is empty."
  else
    match (predictions.zip real_results).mapM
        (fun pr => (pred_margin? pr.1).map (fun pm => (pm, pr.2))) with
    | none => .error "KeyError: margin"
    | some pairs =>
      let errors := pairs.map
        (fun q => |q.1 - ((q.2.home_score - q.2.away_score : ℤ) : ℚ)|)
      let correct := (pairs.filter (fun q =>
        correct_winner q.1 ((q.2.home_score - q.2.away_score : ℤ) : ℚ))).length
      .ok
        { rmse := Real.sqrt (((errors.map (fun e => e ^ 2)).sum /
            (errors.length : ℚ) : ℚ) : ℝ)
          mae := errors.sum / (errors.length : ℚ)
          max_error := errors.foldr max 0
          correct_winners := correct
          accuracy := (correct : ℚ) / (real_results.length : ℚ) * 100 }

/-- The loop body of `evaluate_params`, lines 249–263: load each match file
and simulate it, with any raised exception caught and turning the whole
trial into `None`.  The loader oracle models `load_match_squads`, whose
failures are raised exceptions (`Except.error`). -/
def collect_predictions (loader : String → Except String SquadTable)
    (config : Params) : List HistMatch → Option (List SimResult)
  | [] => some []
  | m :: rest =>
    match loader m.match_file with
    | .error _ => none
    | .ok df =>
      (collect_predictions loader config rest).map
        (simulate_match m.home m.away df config :: ·)

/-- `evaluate_params` from `src/src/optimize_params.py`, lines 228–265.
The outer `Except` models exceptions escaping the function: the
`calculate_metrics` call sits outside the `try` block, so an exception it
raises propagates to the caller.  `.ok none` is Python's `return None`. -/
noncomputable def evaluate_params (loader : String → Except String SquadTable)
    (tactical_weight home_advantage : ℚ) :
    Except String (Option EvalMetrics) :=
  let config := { DEFAULT_CONFIG with
    WEIGHT_MODEL_TACTICAL := tactical_weight
    WEIGHT_MODEL_ELO := 1 - tactical_weight
    HOME_ADVANTAGE := home_advantage }
  match collect_predictions loader config REAL_RESULTS with
  | none => .ok none
  | some predictions =>
    (calculate_metrics predictions REAL_RESULTS).map some

/-- The grid axis `tactical_weights`, line 286. -/
def tactical_weights : List ℚ := [1/2, 11/20, 3/5, 13/20, 7/10, 3/4, 4/5]

/-- The grid axis `home_advantages`, line 287. -/
def home_advantages : List ℚ := [0, 1, 2, 3, 4, 5]

/-- The evaluation loop of `grid_search`, lines 293–330: a trial whose
`evaluate_params` is `None` is skipped; a trial that raises aborts the whole
search (the loop has no exception handler). -/
noncomputable def grid_eval (loader : String → Except String SquadTable) :
    Except String (List (ℚ × ℚ × EvalMetrics)) :=
  (tactical_weights.flatMap (fun t => home_advantages.map (fun h => (t, h)))
    ).foldlM
    (fun acc th =>
      match evaluate_params loader th.1 th.2 with
      | .error e => .error e
      | .ok none => .ok acc
      | .ok (some m) => .ok (acc ++ [(th.1, th.2, m)]))
    []

/-! ### Concrete fixtures -/

/-- A full squad for one team: 15 starters (shirts 1–8 Forwards, 9–15 Backs)
and 5 bench players (shirts 16–18 Forwards, 19–20 Backs), every skill 75. -/
def demo_team (c : String) : List SquadRow :=
  [⟨c, "Forwards", 75, 1, 1⟩, ⟨c, "Forwards", 75, 1, 2⟩,
   ⟨c, "Forwards", 75, 1, 3⟩, ⟨c, "Forwards", 75, 1, 4⟩,
   ⟨c, "Forwards", 75, 1, 5⟩, ⟨c, "Forwards", 75, 1, 6⟩,
   ⟨c, "Forwards", 75, 1, 7⟩, ⟨c, "Forwards", 75, 1, 8⟩,
   ⟨c, "Backs", 75, 1, 9⟩, ⟨c, "Backs", 75, 1, 10⟩,
   ⟨c, "Backs", 75, 1, 11⟩, ⟨c, "Backs", 75, 1, 12⟩,
   ⟨c, "Backs", 75, 1, 13⟩, ⟨c, "Backs", 75, 1, 14⟩,
   ⟨c, "Backs", 75, 1, 15⟩,
   ⟨c, "Forwards", 75, 0, 16⟩, ⟨c, "Forwards", 75, 0, 17⟩,
   ⟨c, "Forwards", 75, 0, 18⟩, ⟨c, "Backs", 75, 0, 19⟩,
   ⟨c, "Backs", 75, 0, 20⟩]

/-- Two identically rated full squads for teams outside the ELO table. -/
def df_demo : SquadTable := ⟨demo_team "TeamA" ++ demo_team "TeamB", true⟩

/-- A table holding rows for `TeamB` only. -/
def df_onlyB : SquadTable := ⟨demo_team "TeamB", true⟩

/-- A table holding rows for `TeamA` only. -/
def df_onlyA : SquadTable := ⟨demo_team "TeamA", true⟩

/-- A rating table for country `X` whose second record has a blank name. -/
def db_blank : List DbRow :=
  [⟨"John Doe", "X", "Backs", 80⟩, ⟨" ", "X", "Backs", 60⟩]

/-- A small rating table used to exercise the identity resolver. -/
def db_demo : List DbRow :=
  [⟨"Antoine Dupont", "France", "Backs", 95⟩,
   ⟨"Gregory Alldritt", "France", "Forwards", 88⟩,
   ⟨"Jack Crowley", "Ireland", "Backs", 85⟩,
   ⟨"Tadhg Beirne", "Ireland", "Forwards", 90⟩,
   ⟨"Peter Smith", "Ireland", "Forwards", 70⟩]

/-- A squad table with a single Ireland row: every other country resolves to
zero rows. -/
def df_irl : SquadTable := ⟨[⟨"Ireland", "Backs", 80, 1, 9⟩], true⟩

/-- A loader on which every match file reads successfully but yields a table
with no rows for most teams: `simulate_match` then returns its error
dictionary rather than raising. -/
def loader_bad : String → Except String SquadTable := fun _ => .ok df_irl

/-- A loader on which every read raises (e.g. `FileNotFoundError`). -/
def loader_raise : String → Except String SquadTable :=
  fun _ => .error "FileNotFoundError"

/-! ### Properties of the error function -/

theorem exp_neg_sq_integrable :
    MeasureTheory.Integrable (fun t : ℝ => Real.exp (-t ^ 2)) := by
  have h := integrable_exp_neg_mul_sq (b := (1:ℝ)) one_pos
  simpa using h

theorem exp_neg_sq_intervalIntegrable (a b : ℝ) :
    IntervalIntegrable (fun t : ℝ => Real.exp (-t ^ 2))
      MeasureTheory.volume a b :=
  exp_neg_sq_integrable.intervalIntegrable

theorem erf_zero : erf 0 = 0 := by
  unfold erf
  rw [intervalIntegral.integral_same, mul_zero]

theorem erf_neg (x : ℝ) : erf (-x) = -erf x := by
  have h1 := intervalIntegral.integral_comp_neg (a := (0:ℝ)) (b := x)
    (fun t => Real.exp (-t ^ 2))
  simp only [neg_sq, neg_zero] at h1
  unfold erf
  rw [intervalIntegral.integral_symm (-x) 0, ← h1]
  ring

theorem erf_strictMono : StrictMono erf := by
  intro x y hxy
  have hsub : erf y - erf x =
      (2 / Real.sqrt Real.pi) * ∫ t in x..y, Real.exp (-t ^ 2) := by
    unfold erf
    rw [← mul_sub]
    congr 1
    rw [← intervalIntegral.integral_interval_sub_left
      (exp_neg_sq_intervalIntegrable 0 y) (exp_neg_sq_intervalIntegrable 0 x)]
  have hpos : 0 < ∫ t in x..y, Real.exp (-t ^ 2) :=
    intervalIntegral.intervalIntegral_pos_of_pos
      (exp_neg_sq_intervalIntegrable x y) (fun t => Real.exp_pos _) hxy
  have hc : 0 < 2 / Real.sqrt Real.pi :=
    div_pos two_pos (Real.sqrt_pos.mpr Real.pi_pos)
  have := mul_pos hc hpos
  linarith

theorem erf_le_one (x : ℝ) : erf x ≤ 1 := by
  rcases le_or_lt x 0 with hx | hx
  · have h := erf_strictMono.monotone hx
    rw [erf_zero] at h
    linarith
  · have h1 : (∫ t in (0:ℝ)..x, Real.exp (-t ^ 2)) =
        ∫ t in Set.Ioc (0:ℝ) x, Real.exp (-t ^ 2) :=
      intervalIntegral.integral_of_le hx.le
    have h2 : (∫ t in Set.Ioc (0:ℝ) x, Real.exp (-t ^ 2)) ≤
        ∫ t in Set.Ioi (0:ℝ), Real.exp (-t ^ 2) := by
      apply MeasureTheory.setIntegral_mono_set
        exp_neg_sq_integrable.integrableOn
      · exact Filter.Eventually.of_forall (fun t => (Real.exp_pos _).le)
      · exact HasSubset.Subset.eventuallyLE Set.Ioc_subset_Ioi_self
    have h3 : (∫ t in Set.Ioi (0:ℝ), Real.exp (-t ^ 2)) =
        Real.sqrt Real.pi / 2 := by
      have h := integral_gaussian_Ioi 1
      simpa using h
    have hsqrt : 0 < Real.sqrt Real.pi := Real.sqrt_pos.mpr Real.pi_pos
    unfold erf
    rw [h1]
    calc (2 / Real.sqrt Real.pi) * ∫ t in Set.Ioc (0:ℝ) x, Real.exp (-t ^ 2)
        ≤ (2 / Real.sqrt Real.pi) * (Real.sqrt Real.pi / 2) := by
          apply mul_le_mul_of_nonneg_left _ (div_pos two_pos hsqrt).le
          rw [← h3]
          exact h2
      _ = 1 := by field_simp

theorem neg_one_le_erf (x : ℝ) : -1 ≤ erf x := by
  have h := erf_le_one (-x)
  rw [erf_neg] at h
  linarith

theorem erf_eq_zero_iff {x : ℝ} : erf x = 0 ↔ x = 0 := by
  constructor
  · intro h
    exact erf_strictMono.injective (h.trans erf_zero.symm)
  · rintro rfl
    exact erf_zero

theorem erf_pos {x : ℝ} (hx : 0 < x) : 0 < erf x := by
  have h := erf_strictMono hx
  rwa [erf_zero] at h

/-! ### Properties of the win probability -/

theorem win_probability_home_eq_cdf (m σ : ℚ) :
    win_probability_home m σ = stdNormalCDF ((m : ℝ) / (σ : ℝ)) := by
  unfold win_probability_home stdNormalCDF
  norm_num [Rat.cast_div]

theorem win_probability_home_nonneg (m σ : ℚ) :
    0 ≤ win_probability_home m σ := by
  unfold win_probability_home
  have h := neg_one_le_erf (((m / σ : ℚ) : ℝ) / Real.sqrt 2)
  linarith

theorem win_probability_home_le_one (m σ : ℚ) :
    win_probability_home m σ ≤ 1 := by
  unfold win_probability_home
  have h := erf_le_one (((m / σ : ℚ) : ℝ) / Real.sqrt 2)
  linarith

theorem win_probability_home_eq_half_iff {m σ : ℚ} (hσ : σ ≠ 0) :
    win_probability_home m σ = 1/2 ↔ m = 0 := by
  unfold win_probability_home
  constructor
  · intro h
    have herf : erf (((m / σ : ℚ) : ℝ) / Real.sqrt 2) = 0 := by linarith
    have hz := erf_eq_zero_iff.mp herf
    have hs2 : Real.sqrt 2 ≠ 0 := ne_of_gt (Real.sqrt_pos.mpr two_pos)
    rcases div_eq_zero_iff.mp hz with hq | hq
    · have : (m / σ : ℚ) = 0 := by exact_mod_cast hq
      rcases div_eq_zero_iff.mp this with hm | habs
      · exact hm
      · exact absurd habs hσ
    · exact absurd hq hs2
  · rintro rfl
    norm_num [erf_zero]

theorem win_probability_home_neg (m σ : ℚ) :
    win_probability_home (-m) σ = 1 - win_probability_home m σ := by
  unfold win_probability_home
  have hcast : ((-m / σ : ℚ) : ℝ) = -((m / σ : ℚ) : ℝ) := by
    push_cast
    ring
  rw [hcast, neg_div, erf_neg]
  ring

theorem half_lt_win_probability_home {m σ : ℚ} (hm : 0 < m) (hσ : 0 < σ) :
    1/2 < win_probability_home m σ := by
  unfold win_probability_home
  have hq : (0 : ℝ) < ((m / σ : ℚ) : ℝ) := by
    have : (0 : ℚ) < m / σ := div_pos hm hσ
    exact_mod_cast this
  have h := erf_pos (div_pos hq (Real.sqrt_pos.mpr two_pos))
  linarith

/-! ### Structural lemmas about the fusion model -/

theorem mismatch_bonus_neg {d T B : ℚ} (hT : 0 ≤ T) :
    mismatch_bonus (-d) T B = -mismatch_bonus d T B := by
  unfold mismatch_bonus
  split_ifs <;> linarith

theorem simulate_match_ok (home away : String) (df : SquadTable) (p : Params)
    {mh ma : Metrics}
    (hmh : get_tactical_metrics df home p = some mh)
    (hma : get_tactical_metrics df away p = some ma) :
    simulate_match home away df p = .ok
      ⟨home, away,
        ((mh.total_score - ma.total_score) * p.TACTICAL_SCALING_FACTOR +
          mismatch_bonus
            (7/10 * mh.pack_xv + 3/10 * mh.pack_bench -
              (7/10 * ma.pack_xv + 3/10 * ma.pack_bench))
            p.MISMATCH_THRESHOLD p.MISMATCH_BONUS) * p.WEIGHT_MODEL_TACTICAL +
          (WR_ELO_get home - WR_ELO_get away) * p.ELO_SCALING *
            p.WEIGHT_MODEL_ELO + p.HOME_ADVANTAGE,
        (mh.total_score - ma.total_score) * p.TACTICAL_SCALING_FACTOR +
          mismatch_bonus
            (7/10 * mh.pack_xv + 3/10 * mh.pack_bench -
              (7/10 * ma.pack_xv + 3/10 * ma.pack_bench))
            p.MISMATCH_THRESHOLD p.MISMATCH_BONUS,
        (WR_ELO_get home - WR_ELO_get away) * p.ELO_SCALING,
        7/10 * mh.pack_xv + 3/10 * mh.pack_bench -
          (7/10 * ma.pack_xv + 3/10 * ma.pack_bench)⟩ := by
  simp [simulate_match, hmh, hma]

theorem simulate_match_error_iff (home away : String) (df : SquadTable)
    (p : Params) :
    simulate_match home away df p = .error home away ↔
      (get_tactical_metrics df home p = none ∨
        get_tactical_metrics df away p = none) := by
  cases hmh : get_tactical_metrics df home p <;>
    cases hma : get_tactical_metrics df away p <;>
    simp [simulate_match, hmh, hma]

theorem get_tactical_metrics_none_iff (df : SquadTable) (c : String)
    (p : Params) :
    get_tactical_metrics df c p = none ↔
      df.rows.filter (fun r => r.country = c) = [] := by
  unfold get_tactical_metrics
  by_cases h : (df.rows.filter (fun r => r.country = c)).isEmpty <;>
    simp_all [List.isEmpty_iff]

/-! ### Evaluation of the symmetric demonstration match -/

theorem df_demo_sim_AB :
    simulate_match "TeamA" "TeamB" df_demo DEFAULT_CONFIG =
      .ok ⟨"TeamA", "TeamB", 2, 0, 0, 0⟩ := by
  norm_num +decide [simulate_match, get_tactical_metrics, get_unit_average,
    mean, mismatch_bonus, WR_ELO_get, DEFAULT_CONFIG, df_demo, demo_team,
    List.filter]

theorem df_demo_sim_BA :
    simulate_match "TeamB" "TeamA" df_demo DEFAULT_CONFIG =
      .ok ⟨"TeamB", "TeamA", 2, 0, 0, 0⟩ := by
  norm_num +decide [simulate_match, get_tactical_metrics, get_unit_average,
    mean, mismatch_bonus, WR_ELO_get, DEFAULT_CONFIG, df_demo, demo_team,
    List.filter]

theorem df_demo_sim_AB_noH :
    simulate_match "TeamA" "TeamB" df_demo
      { DEFAULT_CONFIG with HOME_ADVANTAGE := 0 } =
      .ok ⟨"TeamA", "TeamB", 0, 0, 0, 0⟩ := by
  norm_num +decide [simulate_match, get_tactical_metrics, get_unit_average,
    mean, mismatch_bonus, WR_ELO_get, DEFAULT_CONFIG, df_demo, demo_team,
    List.filter]

theorem df_demo_sim_BA_noH :
    simulate_match "TeamB" "TeamA" df_demo
      { DEFAULT_CONFIG with HOME_ADVANTAGE := 0 } =
      .ok ⟨"TeamB", "TeamA", 0, 0, 0, 0⟩ := by
  norm_num +decide [simulate_match, get_tactical_metrics, get_unit_average,
    mean, mismatch_bonus, WR_ELO_get, DEFAULT_CONFIG, df_demo, demo_team,
    List.filter]

/-! ### Claims -/

/-- Claim C1: on every successful `simulate_match` output and every
parameter set with positive `STD_DEV`, the win probability is the erf-form
standard normal CDF of `final_margin / STD_DEV`, lies in `[0, 1]`, and
equals `1/2` exactly when the final margin is zero. -/
theorem claim_C1 (home away : String) (df : SquadTable) (p : Params)
    (r : Prediction) (hσ : 0 < p.STD_DEV)
    (_hr : simulate_match home away df p = .ok r) :
    win_probability_home r.margin p.STD_DEV =
      stdNormalCDF ((r.margin : ℝ) / (p.STD_DEV : ℝ)) ∧
    0 ≤ win_probability_home r.margin p.STD_DEV ∧
    win_probability_home r.margin p.STD_DEV ≤ 1 ∧
    (win_probability_home r.margin p.STD_DEV = 1/2 ↔ r.margin = 0) :=
  ⟨win_probability_home_eq_cdf _ _, win_probability_home_nonneg _ _,
   win_probability_home_le_one _ _,
   win_probability_home_eq_half_iff (ne_of_gt hσ)⟩

/-- Witness for C1 on a concrete simulated match. -/
theorem claim_C1_witness :
    0 < DEFAULT_CONFIG.STD_DEV ∧
    simulate_match "TeamA" "TeamB" df_demo DEFAULT_CONFIG =
      .ok ⟨"TeamA", "TeamB", 2, 0, 0, 0⟩ ∧
    (win_probability_home 2 DEFAULT_CONFIG.STD_DEV =
        stdNormalCDF (((2 : ℚ) : ℝ) / ((DEFAULT_CONFIG.STD_DEV : ℚ) : ℝ)) ∧
      0 ≤ win_probability_home 2 DEFAULT_CONFIG.STD_DEV ∧
      win_probability_home 2 DEFAULT_CONFIG.STD_DEV ≤ 1 ∧
      (win_probability_home 2 DEFAULT_CONFIG.STD_DEV = 1/2 ↔ (2 : ℚ) = 0)) :=
  ⟨by norm_num [DEFAULT_CONFIG], df_demo_sim_AB,
   claim_C1 "TeamA" "TeamB" df_demo DEFAULT_CONFIG
     ⟨"TeamA", "TeamB", 2, 0, 0, 0⟩ (by norm_num [DEFAULT_CONFIG])
     df_demo_sim_AB⟩

/-- Claim C8: two full squads of all-75 skill, equal (defaulted) ELO for
both teams, and `HOME_ADVANTAGE = 2` under otherwise-default parameters
produce a final margin of exactly 2 and a win probability equal to the
standard normal CDF at `2 / 13.5` (which is strictly above one half). -/
theorem claim_C8 :
    simulate_match "TeamA" "TeamB" df_demo DEFAULT_CONFIG =
      .ok ⟨"TeamA", "TeamB", 2, 0, 0, 0⟩ ∧
    WR_ELO_get "TeamA" = WR_ELO_get "TeamB" ∧
    win_probability_home 2 DEFAULT_CONFIG.STD_DEV =
      stdNormalCDF ((2 : ℝ) / 13.5) ∧
    1/2 < win_probability_home 2 DEFAULT_CONFIG.STD_DEV := by
  refine ⟨df_demo_sim_AB, by decide, ?_, ?_⟩
  · rw [win_probability_home_eq_cdf]
    congr 1
    norm_num [DEFAULT_CONFIG]
  · exact half_lt_win_probability_home (by norm_num)
      (by norm_num [DEFAULT_CONFIG])

/-- Counterexample to claim C2 as stated: with the default (nonzero)
`HOME_ADVANTAGE` held at the same value for both calls, swapping the home
and away teams of a fully symmetric match yields margin 2 in both
directions, which is not the negation, and a swapped win probability that
is not one minus the original. -/
theorem claim_C2_counterexample :
    simulate_match "TeamA" "TeamB" df_demo DEFAULT_CONFIG =
      .ok ⟨"TeamA", "TeamB", 2, 0, 0, 0⟩ ∧
    simulate_match "TeamB" "TeamA" df_demo DEFAULT_CONFIG =
      .ok ⟨"TeamB", "TeamA", 2, 0, 0, 0⟩ ∧
    ¬((2 : ℚ) = -(2 : ℚ)) ∧
    ¬(win_probability_home 2 DEFAULT_CONFIG.STD_DEV =
        1 - win_probability_home 2 DEFAULT_CONFIG.STD_DEV) := by
  refine ⟨df_demo_sim_AB, df_demo_sim_BA, by norm_num, ?_⟩
  intro h
  have h2 : win_probability_home 2 DEFAULT_CONFIG.STD_DEV = 1/2 := by
    linarith
  have h3 := (win_probability_home_eq_half_iff
    (m := 2) (σ := DEFAULT_CONFIG.STD_DEV) (by norm_num [DEFAULT_CONFIG])).mp h2
  norm_num at h3

/-- Claim C2 (amended): with `HOME_ADVANTAGE = 0` (and a nonnegative
mismatch threshold), swapping the home and away arguments of
`simulate_match` negates the final margin and yields a swapped win
probability equal to one minus the original. -/
theorem claim_C2 (home away : String) (df : SquadTable) (p : Params)
    (hH : p.HOME_ADVANTAGE = 0) (hT : 0 ≤ p.MISMATCH_THRESHOLD)
    (rh rs : Prediction)
    (h1 : simulate_match home away df p = .ok rh)
    (h2 : simulate_match away home df p = .ok rs) :
    rs.margin = -rh.margin ∧
    win_probability_home rs.margin p.STD_DEV =
      1 - win_probability_home rh.margin p.STD_DEV := by
  rcases hmh : get_tactical_metrics df home p with _ | mh
  · simp [simulate_match, hmh] at h1
  rcases hma : get_tactical_metrics df away p with _ | ma
  · simp [simulate_match, hmh, hma] at h1
  have k1 := simulate_match_ok home away df p hmh hma
  have k2 := simulate_match_ok away home df p hma hmh
  rw [h1] at k1
  rw [h2] at k2
  injection k1 with e1
  injection k2 with e2
  have hpd : 7/10 * ma.pack_xv + 3/10 * ma.pack_bench -
      (7/10 * mh.pack_xv + 3/10 * mh.pack_bench) =
      -(7/10 * mh.pack_xv + 3/10 * mh.pack_bench -
        (7/10 * ma.pack_xv + 3/10 * ma.pack_bench)) := by
    ring
  have hmneg : rs.margin = -rh.margin := by
    rw [e1, e2]
    dsimp only
    rw [hpd, mismatch_bonus_neg hT, hH]
    ring
  exact ⟨hmneg, by rw [hmneg, win_probability_home_neg]⟩

/-- Witness for C2 (amended): the symmetric match under default parameters
with the home advantage zeroed out. -/
theorem claim_C2_witness :
    ({ DEFAULT_CONFIG with HOME_ADVANTAGE := 0 } : Params).HOME_ADVANTAGE
        = 0 ∧
    0 ≤ ({ DEFAULT_CONFIG with HOME_ADVANTAGE := 0 } :
        Params).MISMATCH_THRESHOLD ∧
    simulate_match "TeamA" "TeamB" df_demo
        { DEFAULT_CONFIG with HOME_ADVANTAGE := 0 } =
      .ok ⟨"TeamA", "TeamB", 0, 0, 0, 0⟩ ∧
    simulate_match "TeamB" "TeamA" df_demo
        { DEFAULT_CONFIG with HOME_ADVANTAGE := 0 } =
      .ok ⟨"TeamB", "TeamA", 0, 0, 0, 0⟩ ∧
    ((0 : ℚ) = -(0 : ℚ) ∧
      win_probability_home 0
          ({ DEFAULT_CONFIG with HOME_ADVANTAGE := 0 } : Params).STD_DEV =
        1 - win_probability_home 0
          ({ DEFAULT_CONFIG with HOME_ADVANTAGE := 0 } : Params).STD_DEV) :=
  ⟨rfl, by norm_num [DEFAULT_CONFIG], df_demo_sim_AB_noH, df_demo_sim_BA_noH,
   claim_C2 "TeamA" "TeamB" df_demo _ rfl (by norm_num [DEFAULT_CONFIG])
     ⟨"TeamA", "TeamB", 0, 0, 0, 0⟩ ⟨"TeamB", "TeamA", 0, 0, 0, 0⟩
     df_demo_sim_AB_noH df_demo_sim_BA_noH⟩

/-- Claim C3: the mismatch adjustment in `simulate_match` is a flat step
function of `pack_diff` — the full bonus (with the sign of `pack_diff`)
whenever `|pack_diff|` exceeds the threshold, no matter by how much, and
zero otherwise; in particular 4.1 and 40 earn the identical bonus 5 under
the defaults while 3.9 earns none, and the tactical margin of a successful
simulation is the scaled score difference plus exactly this adjustment. -/
theorem claim_C3 (d T B : ℚ) (hT : 0 ≤ T) :
    (T < |d| → mismatch_bonus d T B = if 0 < d then B else -B) ∧
    (|d| ≤ T → mismatch_bonus d T B = 0) ∧
    (∀ (home away : String) (df : SquadTable) (p : Params)
      (mh ma : Metrics) (r : Prediction),
      get_tactical_metrics df home p = some mh →
      get_tactical_metrics df away p = some ma →
      simulate_match home away df p = .ok r →
      r.tactical =
        (mh.total_score - ma.total_score) * p.TACTICAL_SCALING_FACTOR +
          mismatch_bonus r.pack_diff p.MISMATCH_THRESHOLD
            p.MISMATCH_BONUS) ∧
    mismatch_bonus (41/10) 4 5 = 5 ∧
    mismatch_bonus 40 4 5 = 5 ∧
    mismatch_bonus (39/10) 4 5 = 0 := by
  refine ⟨?_, ?_, ?_, by norm_num [mismatch_bonus], by norm_num [mismatch_bonus],
    by norm_num [mismatch_bonus]⟩
  · intro habs
    rcases abs_cases d with ⟨he, _⟩ | ⟨he, hd⟩ <;> rw [he] at habs <;>
      unfold mismatch_bonus <;> split_ifs <;> first | rfl | linarith
  · intro habs
    rcases abs_cases d with ⟨he, _⟩ | ⟨he, _⟩ <;> rw [he] at habs <;>
      unfold mismatch_bonus <;> split_ifs <;> first | rfl | linarith
  · intro home away df p mh ma r hmh hma hr
    have k := simulate_match_ok home away df p hmh hma
    rw [hr] at k
    injection k with e
    rw [e]

/-- Witness for C3 at the spec's boundary inputs. -/
theorem claim_C3_witness :
    mismatch_bonus (41/10) 4 5 = (if (0:ℚ) < 41/10 then (5:ℚ) else -5) ∧
    mismatch_bonus (39/10) 4 5 = 0 :=
  ⟨(claim_C3 (41/10) 4 5 (by norm_num)).1
      (by rw [abs_of_nonneg] <;> norm_num),
   (claim_C3 (39/10) 4 5 (by norm_num)).2.1
      (by rw [abs_of_nonneg] <;> norm_num)⟩

/-- Counterexample to claim C6 as stated: the error dictionary does not
identify which team lacked data — a table where only the home team is
missing and a table where only the away team is missing produce the very
same error result. -/
theorem claim_C6_counterexample :
    simulate_match "TeamA" "TeamB" df_onlyB DEFAULT_CONFIG =
      simulate_match "TeamA" "TeamB" df_onlyA DEFAULT_CONFIG ∧
    get_tactical_metrics df_onlyB "TeamA" DEFAULT_CONFIG = none ∧
    (get_tactical_metrics df_onlyB "TeamB" DEFAULT_CONFIG).isSome = true ∧
    (get_tactical_metrics df_onlyA "TeamA" DEFAULT_CONFIG).isSome = true ∧
    get_tactical_metrics df_onlyA "TeamB" DEFAULT_CONFIG = none := by
  refine ⟨?_, by decide, by decide, by decide, by decide⟩
  decide

/-- Claim C6 (amended): whenever either team's aggregation yields no data,
`simulate_match` returns its structured error result — which names both
match teams without distinguishing which one lacked data — and a full
prediction is never produced for such input. -/
theorem claim_C6 (home away : String) (df : SquadTable) (p : Params)
    (h : get_tactical_metrics df home p = none ∨
      get_tactical_metrics df away p = none) :
    simulate_match home away df p = .error home away := by
  rcases h with h | h
  · simp [simulate_match, h]
  · cases hm : get_tactical_metrics df home p <;>
      simp [simulate_match, h, hm]

/-- Witness for C6 (amended) on a table missing the home team. -/
theorem claim_C6_witness :
    simulate_match "TeamA" "TeamB" df_onlyB DEFAULT_CONFIG =
      .error "TeamA" "TeamB" :=
  claim_C6 "TeamA" "TeamB" df_onlyB DEFAULT_CONFIG (Or.inl (by decide))

/-- Claim C9: `simulate_match` signals the missing-data error exactly when
one of the two teams has zero rows in the table; otherwise a full
prediction is produced, and inside the aggregation every positional unit
whose (fallback) subset is empty contributes the default average 70. -/
theorem claim_C9 (home away : String) (df : SquadTable) (p : Params) :
    (simulate_match home away df p = .error home away ↔
      (df.rows.filter (fun r => r.country = home) = [] ∨
        df.rows.filter (fun r => r.country = away) = [])) ∧
    ((df.rows.filter (fun r => r.country = home) ≠ [] ∧
        df.rows.filter (fun r => r.country = away) ≠ []) →
      ∃ r, simulate_match home away df p = .ok r) ∧
    (∀ (b : Bool) (u : String), get_unit_average b [] u = 70) ∧
    (∀ (b : Bool) (rows : List SquadRow),
      rows.filter (fun r => r.position_group = "Forwards") = [] →
      get_unit_average b rows "Pack" = 70) ∧
    (∀ (b : Bool) (rows : List SquadRow),
      rows.filter (fun r => r.position_group = "Backs") = [] →
      get_unit_average b rows "Strike" = 70) ∧
    (∀ (b : Bool) (rows : List SquadRow),
      rows.filter (fun r => r.position_group = "Backs") = [] →
      rows.filter (fun r => r.shirt_number = 9 ∨ r.shirt_number = 10) = []
        → get_unit_average b rows "Control" = 70) := by
  refine ⟨?_, ?_, ?_, ?_, ?_, ?_⟩
  · rw [simulate_match_error_iff, get_tactical_metrics_none_iff,
      get_tactical_metrics_none_iff]
  · rintro ⟨hh, ha⟩
    rcases hmh : get_tactical_metrics df home p with _ | mh
    · exact absurd ((get_tactical_metrics_none_iff df home p).mp hmh) hh
    rcases hma : get_tactical_metrics df away p with _ | ma
    · exact absurd ((get_tactical_metrics_none_iff df away p).mp hma) ha
    exact ⟨_, simulate_match_ok home away df p hmh hma⟩
  · intro b u
    simp [get_unit_average]
  · intro b rows h
    by_cases he : rows.isEmpty <;> simp [get_unit_average, he, h]
  · intro b rows h
    by_cases he : rows.isEmpty <;> simp [get_unit_average, he, h]
  · intro b rows hb hhb
    simp only [Bool.decide_or] at hhb
    by_cases he : rows.isEmpty <;> simp [get_unit_average, he, hb, hhb]

/-- Witness for C9: a table with both teams present yields a prediction. -/
theorem claim_C9_witness :
    ∃ r, simulate_match "TeamA" "TeamB" df_demo DEFAULT_CONFIG = .ok r :=
  (claim_C9 "TeamA" "TeamB" df_demo DEFAULT_CONFIG).2.1
    ⟨by decide, by decide⟩

/-! ### Lemmas about the identity resolver -/

theorem match_player_data_eq (q : Option String) (c : String)
    (db : List DbRow) :
    match_player_data q c db =
      match (db.filter (country_matches c)).filter
          (fun r => normalize_name (some r.name) = normalize_name q) with
      | f :: _ => some f
      | [] => (db.filter (country_matches c)).find?
          (containment_match (normalize_name q)) := rfl

theorem str_in_nil (s : String) : str_in "" s = true := by
  obtain ⟨l⟩ := s
  show chars_in ("" : String).data l = true
  have hdata : ("" : String).data = [] := rfl
  rw [hdata]
  cases l <;> rfl

theorem find?_eq_head?_of_all {α : Type} (l : List α) (p : α → Bool)
    (h : ∀ x ∈ l, p x = true) : l.find? p = l.head? := by
  cases l with
  | nil => rfl
  | cons a as => simp [List.find?, h a (List.mem_cons_self a as)]

/-- Claim C4: `match_player_data` only ever returns a candidate of the
queried country (case-insensitively); whenever an exact normalized-name
match exists among those candidates it returns an exact match, and only
in the absence of any exact match does it fall back to the first
containment match in table order. -/
theorem claim_C4 (q : Option String) (c : String) (db : List DbRow) :
    (∀ r, match_player_data q c db = some r → country_matches c r = true) ∧
    ((db.filter (country_matches c)).any
        (fun r => normalize_name (some r.name) = normalize_name q) = true →
      ∃ r, match_player_data q c db = some r ∧
        normalize_name (some r.name) = normalize_name q) ∧
    ((∀ e ∈ db.filter (country_matches c),
        ¬(normalize_name (some e.name) = normalize_name q)) →
      match_player_data q c db =
        (db.filter (country_matches c)).find?
          (containment_match (normalize_name q))) := by
  refine ⟨?_, ?_, ?_⟩
  · intro r hr
    rw [match_player_data_eq] at hr
    rcases hf : (db.filter (country_matches c)).filter
        (fun x => normalize_name (some x.name) = normalize_name q)
      with _ | ⟨f, t⟩ <;> rw [hf] at hr
    · exact List.of_mem_filter (List.mem_of_find?_eq_some hr)
    · have hfr : f = r := by
        injection hr
      have hmem : f ∈ (db.filter (country_matches c)).filter
          (fun x => normalize_name (some x.name) = normalize_name q) := by
        rw [hf]
        exact List.mem_cons_self f t
      exact hfr ▸ List.of_mem_filter (List.mem_of_mem_filter hmem)
  · intro hany
    obtain ⟨e, he, hpe⟩ := List.any_eq_true.mp hany
    have hmem : e ∈ (db.filter (country_matches c)).filter
        (fun x => normalize_name (some x.name) = normalize_name q) :=
      List.mem_filter.mpr ⟨he, hpe⟩
    rcases hf : (db.filter (country_matches c)).filter
        (fun x => normalize_name (some x.name) = normalize_name q)
      with _ | ⟨f, t⟩
    · rw [hf] at hmem
      exact absurd hmem (List.not_mem_nil e)
    · refine ⟨f, ?_, ?_⟩
      · rw [match_player_data_eq, hf]
      · have hfm : f ∈ (db.filter (country_matches c)).filter
            (fun x => normalize_name (some x.name) = normalize_name q) := by
          rw [hf]
          exact List.mem_cons_self f t
        have hp := (List.mem_filter.mp hfm).2
        exact of_decide_eq_true hp
  · intro hno
    have hfnil : (db.filter (country_matches c)).filter
        (fun x => normalize_name (some x.name) = normalize_name q) = [] := by
      rcases hf : (db.filter (country_matches c)).filter
          (fun x => normalize_name (some x.name) = normalize_name q)
        with _ | ⟨f, t⟩
      · exact hf
      · exfalso
        have hfm : f ∈ (db.filter (country_matches c)).filter
            (fun x => normalize_name (some x.name) = normalize_name q) := by
          rw [hf]
          exact List.mem_cons_self f t
        exact hno f (List.mem_of_mem_filter hfm)
          (of_decide_eq_true (List.mem_filter.mp hfm).2)
    rw [match_player_data_eq, hfnil]

/-- Witness for C4: a fallback containment lookup on a concrete table with
no exact match for the query. -/
theorem claim_C4_witness :
    match_player_data (some "dupont") "France" db_demo =
      (db_demo.filter (country_matches "France")).find?
        (containment_match (normalize_name (some "dupont"))) :=
  (claim_C4 (some "dupont") "France" db_demo).2.2 (by decide)

/-- Counterexample to claim C10 as stated: when a candidate's name itself
normalizes to the empty string, an empty-normalized query is answered by
the exact pass with that candidate — not by the containment fallback with
the first record of the country. -/
theorem claim_C10_counterexample :
    normalize_name (some "   ") = "" ∧
    (db_blank.filter (country_matches "X")).head? =
      some ⟨"John Doe", "X", "Backs", 80⟩ ∧
    match_player_data (some "   ") "X" db_blank =
      some ⟨" ", "X", "Backs", 60⟩ ∧
    match_player_data (some "   ") "X" db_blank ≠
      (db_blank.filter (country_matches "X")).head? := by
  refine ⟨by decide, by decide, by decide, by decide⟩

/-- Claim C10 (amended): an empty-normalizing query against a country with
at least one record is never unresolved, and when no candidate name itself
normalizes to the empty string the containment fallback returns the first
record of that country in table order. -/
theorem claim_C10 (q : Option String) (c : String) (db : List DbRow)
    (hne : db.filter (country_matches c) ≠ [])
    (hq : normalize_name q = "") :
    (match_player_data q c db).isSome = true ∧
    ((∀ e ∈ db.filter (country_matches c),
        ¬(normalize_name (some e.name) = "")) →
      match_player_data q c db = (db.filter (country_matches c)).head?) := by
  have hcont : ∀ r : DbRow,
      containment_match (normalize_name q) r = true := by
    intro r
    unfold containment_match
    rw [hq, str_in_nil]
    rfl
  constructor
  · rw [match_player_data_eq]
    rcases hf : (db.filter (country_matches c)).filter
        (fun x => normalize_name (some x.name) = normalize_name q)
      with _ | ⟨f, t⟩
    · rw [hf]
      rcases hcands : db.filter (country_matches c) with _ | ⟨x, xs⟩
      · exact absurd hcands hne
      show (List.find? (containment_match (normalize_name q))
        (x :: xs)).isSome = true
      simp only [List.find?, hcont x, Option.isSome_some]
    · rw [hf]
      rfl
  · intro hno
    have hfnil : (db.filter (country_matches c)).filter
        (fun x => normalize_name (some x.name) = normalize_name q) = [] := by
      rcases hf : (db.filter (country_matches c)).filter
          (fun x => normalize_name (some x.name) = normalize_name q)
        with _ | ⟨f, t⟩
      · exact hf
      · exfalso
        have hfm : f ∈ (db.filter (country_matches c)).filter
            (fun x => normalize_name (some x.name) = normalize_name q) := by
          rw [hf]
          exact List.mem_cons_self f t
        have hpf := of_decide_eq_true (List.mem_filter.mp hfm).2
        rw [hq] at hpf
        exact hno f (List.mem_of_mem_filter hfm) hpf
    rw [match_player_data_eq, hfnil]
    exact find?_eq_head?_of_all _ _ (fun x _ => hcont x)

/-- Witness for C10 (amended): a whitespace-only query against the France
records resolves to the first France record in table order. -/
theorem claim_C10_witness :
    (match_player_data (some "   ") "France" db_demo).isSome = true ∧
    match_player_data (some "   ") "France" db_demo =
      (db_demo.filter (country_matches "France")).head? :=
  ⟨(claim_C10 (some "   ") "France" db_demo (by decide) (by decide)).1,
   (claim_C10 (some "   ") "France" db_demo (by decide) (by decide)).2
     (by decide)⟩

/-- Claim C5: an unresolved lineup entry is assigned the per-country
fallback skill — the 25th percentile of the country's skill column, or 70
when the country has no records — and its position group is Forwards
exactly when the shirt number lies in 1–8 or 16–20. -/
theorem claim_C5 (player team : String) (db : List DbRow)
    (jersey is_starting : ℤ)
    (hunm : match_player_data (some player) team db = none) :
    (resolve_lineup_entry player team db
        (get_country_fallback_skill team db) jersey is_starting).skill =
      (if db.filter (country_matches team) = [] then 70
       else quantile ((db.filter (country_matches team)).map (·.skill))
        (1/4)) ∧
    ((resolve_lineup_entry player team db
        (get_country_fallback_skill team db) jersey is_starting
        ).position_group = "Forwards" ↔
      ((1 ≤ jersey ∧ jersey ≤ 8) ∨ (16 ≤ jersey ∧ jersey ≤ 20))) := by
  unfold resolve_lineup_entry
  rw [hunm]
  refine ⟨?_, ?_⟩
  · show get_country_fallback_skill team db = _
    unfold get_country_fallback_skill
    by_cases h : (db.filter (country_matches team)).isEmpty <;>
      simp_all [List.isEmpty_iff]
  · show infer_position_group jersey = "Forwards" ↔ _
    unfold infer_position_group
    split_ifs with hmem
    · simp only [List.mem_cons, List.not_mem_nil, or_false] at hmem
      constructor
      · intro _
        omega
      · intro _
        rfl
    · simp only [List.mem_cons, List.not_mem_nil, or_false] at hmem
      push_neg at hmem
      constructor
      · intro hcontr
        exact absurd hcontr (by decide)
      · intro hiv
        exfalso
        omega

/-- Witness for C5: a nonexistent Ireland player with shirt 16 receives the
quartile skill 77.5 and is inferred a forward. -/
theorem claim_C5_witness :
    (resolve_lineup_entry "Unknown Guy" "Ireland" db_demo
        (get_country_fallback_skill "Ireland" db_demo) 16 0).skill =
      155/2 ∧
    ((resolve_lineup_entry "Unknown Guy" "Ireland" db_demo
        (get_country_fallback_skill "Ireland" db_demo) 16 0
        ).position_group = "Forwards" ↔
      ((1 ≤ (16:ℤ) ∧ (16:ℤ) ≤ 8) ∨ (16 ≤ (16:ℤ) ∧ (16:ℤ) ≤ 20))) := by
  have h := claim_C5 "Unknown Guy" "Ireland" db_demo 16 0 (by decide)
  refine ⟨?_, h.2⟩
  rw [h.1]
  norm_num +decide [db_demo, country_matches, quantile, sort_asc,
    insert_sorted, List.filter]

/-- Claim C7: a match that fails by returning the missing-data error
dictionary is not caught by `evaluate_params` — reading its `margin` key
raises a `KeyError` that escapes both `evaluate_params` (which its
docstring promises would return `None`) and the grid-search loop, while a
failure raised during loading is caught and discards the trial. -/
theorem claim_C7_bug :
    evaluate_params loader_bad (13/20) 2 = .error "KeyError: margin" ∧
    evaluate_params loader_raise (13/20) 2 = .ok none ∧
    grid_eval loader_bad = .error "KeyError: margin" := by
  refine ⟨rfl, rfl, rfl⟩

end SixNations
